import Mathlib

/-!
Shallow embedding of the measurement firmware in
`NodeMCU-Pulse-Oxymeter.ino` (ESP8266 pulse oximeter).

Pure HTTP handlers (`handleStart`, `handleCancel`, `handleJSON`), the
sensor-side helpers (`resetMeasurement`, the plausibility-filter tail of
`takeSingleReading`, `calculateAverages`) and the cooperative main `loop`
are translated into Lean.  Floating point state (`float`/`int32_t`) is
modelled with `ℚ`/`ℤ`; the fixed-size C arrays `hrReadings[5]` and
`spo2Readings[5]` are modelled as length-5 lists.  The external estimator
`maxim_heart_rate_and_oxygen_saturation` is opaque: its output is an
environment input (`Estimate`).  Display routines only draw pixels and
write `statusMsg`, which no claim mentions, so they are omitted from the
state.  The cooperative `loop` (plus the poll loops it contains) is
modelled as a small-step machine `progStep` over an explicit program
counter; every checkpoint at which `server.handleClient()` runs may
service one pending HTTP request (`applyReq`).
-/

/-- Output of the external estimator for one window (`spo2`, `spo2Valid`,
`heartRate`, `hrValid` in the source; the validity bytes are booleans). -/
structure Estimate where
  heartRate : ℤ
  hrValid : Bool
  spo2 : ℤ
  spo2Valid : Bool
  deriving DecidableEq, Repr

/-- The firmware's global session state (the globals of the sketch that the
measurement lifecycle reads and writes). -/
structure Sess where
  hrReadings : List ℚ
  spo2Readings : List ℚ
  validHRCount : ℕ
  validSpO2Count : ℕ
  avgHR : ℚ
  avgSpO2 : ℚ
  running : Bool
  hadFinger : Bool
  cancelRequested : Bool
  patientName : String
  deriving DecidableEq, Repr

/-- `TOTAL_SAMPLES`: the number of sampling stages. -/
def TOTAL_SAMPLES : ℕ := 5

/-- `sampleCounts`: the fixed per-stage window sizes. -/
def sampleCounts : List ℕ := [50, 60, 70, 80, 90]

/-- The three-way classification computed inside `handleJSON`
(lines 136-138): arguments are `avgSpO2` and `avgHR`. -/
def classifyHandler (avgSpO2 avgHR : ℚ) : String :=
  if 95 ≤ avgSpO2 ∧ 60 ≤ avgHR ∧ avgHR ≤ 100 then "Normal"
  else if 90 ≤ avgSpO2 then "Warning"
  else "Critical"

/-- The three-way classification computed inside `displayResults`
(lines 244-246): the on-device result screen's `statusLabel`. -/
def displayResultsLabel (avgSpO2 avgHR : ℚ) : String :=
  if 95 ≤ avgSpO2 ∧ 60 ≤ avgHR ∧ avgHR ≤ 100 then "Normal"
  else if 90 ≤ avgSpO2 then "Warning"
  else "Critical"

/-- The `status` string of the `/data` snapshot (lines 130-139). -/
def statusOf (s : Sess) : String :=
  if s.running = false ∧ s.avgHR = 0 ∧ s.avgSpO2 = 0 then "idle"
  else if s.running = true then "measuring"
  else classifyHandler s.avgSpO2 s.avgHR

/-- C-style cast of a `float` to `int`: truncation toward zero, as in
`(int)avgHR` at lines 142-143. -/
def cTrunc (q : ℚ) : ℤ :=
  if 0 ≤ q then Int.floor q else Int.ceil q

/-- The JSON object emitted by `handleJSON` (lines 141-149), one field per
key of the JSON text. -/
structure Snapshot where
  heartRate : ℤ
  spo2 : ℤ
  hrValid : ℕ
  spo2Valid : ℕ
  totalSamples : ℕ
  running : Bool
  status : String
  deriving DecidableEq, Repr

/-- `handleJSON` (lines 127-152): builds the snapshot and leaves the
session state untouched. -/
def handleJSON (s : Sess) : Sess × Snapshot :=
  (s,
    { heartRate := cTrunc s.avgHR
      spo2 := cTrunc s.avgSpO2
      hrValid := s.validHRCount
      spo2Valid := s.validSpO2Count
      totalSamples := TOTAL_SAMPLES
      running := s.running
      status := statusOf s })

/-- `handleStart` (lines 90-118).  The request body is modelled as the
optionally parsed `name` field (`none` covers a missing/malformed body);
`strlcpy` into the 32-byte buffer keeps at most 31 characters.  The
returned boolean is the unconditional success acknowledgement. -/
def handleStart (s : Sess) (label : Option String) : Sess × Bool :=
  if s.running = false then
    ({ s with
        patientName := (label.getD "").take 31
        running := true
        hadFinger := false
        cancelRequested := false
        validHRCount := 0
        validSpO2Count := 0
        avgHR := 0
        avgSpO2 := 0
        hrReadings := List.replicate TOTAL_SAMPLES 0
        spo2Readings := List.replicate TOTAL_SAMPLES 0 }, true)
  else (s, true)

/-- `handleCancel` (lines 120-125): unconditionally raises the flag and
acknowledges success. -/
def handleCancel (s : Sess) : Sess × Bool :=
  ({ s with cancelRequested := true }, true)

/-- `resetMeasurement` (lines 285-294).  Note that it does NOT touch the
reading arrays nor the stored averages. -/
def resetMeasurement (s : Sess) : Sess :=
  { s with
      running := false
      hadFinger := false
      cancelRequested := false
      validHRCount := 0
      validSpO2Count := 0
      patientName := "" }

/-- The plausibility-filter tail of `takeSingleReading` (lines 349-361):
record each metric independently, using 0 as the absent sentinel. -/
def recordStage (s : Sess) (idx : ℕ) (e : Estimate) : Sess :=
  let s1 :=
    if e.hrValid = true ∧ 40 ≤ e.heartRate ∧ e.heartRate ≤ 220 then
      { s with
          hrReadings := s.hrReadings.set idx (e.heartRate : ℚ)
          validHRCount := s.validHRCount + 1 }
    else { s with hrReadings := s.hrReadings.set idx 0 }
  if e.spo2Valid = true ∧ 80 ≤ e.spo2 ∧ e.spo2 ≤ 100 then
    { s1 with
        spo2Readings := s1.spo2Readings.set idx (e.spo2 : ℚ)
        validSpO2Count := s1.validSpO2Count + 1 }
  else { s1 with spo2Readings := s1.spo2Readings.set idx 0 }

/-- Sum of the strictly positive entries of a reading array: the loop body
of `calculateAverages` (lines 368-371). -/
def sumPos (l : List ℚ) : ℚ :=
  l.foldl (fun acc x => if 0 < x then acc + x else acc) 0

/-- `calculateAverages` (lines 366-376). -/
def calculateAverages (s : Sess) : Sess :=
  { s with
      avgHR :=
        if 0 < s.validHRCount then sumPos s.hrReadings / (s.validHRCount : ℚ)
        else 0
      avgSpO2 :=
        if 0 < s.validSpO2Count then
          sumPos s.spo2Readings / (s.validSpO2Count : ℚ)
        else 0 }

/-- The positive entries of a reading array (in a completed run these are
exactly the accepted readings). -/
def positives (l : List ℚ) : List ℚ :=
  l.filter fun x => decide (0 < x)

/-- Program counter of the main `loop` (lines 461-524), with the poll
loops it contains flattened into explicit locations.  `top` is the head of
`loop()` (lines 462-475: service, idle branch, cancel branch).
`sampleLoop i j` is the head of the outer for-loop of `takeSingleReading`
for stage `i` with `j` samples already collected (lines 325-328);
`availWait i j` is the inner `while (!sensor.available())` wait
(lines 329-334); `stageCompute i` is the estimator call plus filtering
(lines 340-361); `stagePost i` is the servicing after a successful stage
(lines 506-507); `resultHold` is the 10-second hold (lines 515-520). -/
inductive PC where
  | top
  | fingerCheck
  | greeting
  | countdown (k : ℕ)
  | stageStart (i : ℕ)
  | sampleLoop (i : ℕ) (j : ℕ)
  | availWait (i : ℕ) (j : ℕ)
  | stageCompute (i : ℕ)
  | stagePost (i : ℕ)
  | averaging
  | resultHold
  deriving DecidableEq, Repr

/-- A machine configuration: the session globals, the control location of
the cooperative loop, and a ghost flag recording whether any session has
ever completed (reached `calculateAverages`). -/
structure Config where
  sess : Sess
  pc : PC
  everCompleted : Bool
  deriving DecidableEq, Repr

/-- An HTTP request routed by the web server (lines 411-413). -/
inductive Req where
  | start (label : Option String)
  | cancel
  | data
  deriving DecidableEq, Repr

/-- Environment input consumed by one machine step: at most one pending
HTTP request, the instantaneous finger-presence reading, sample
availability, the estimator's output for a completed window, and whether
the result-hold deadline has passed. -/
structure Input where
  req : Option Req
  finger : Bool
  available : Bool
  estimate : Estimate
  holdOver : Bool
  deriving DecidableEq, Repr

/-- Effect of `server.handleClient()` on the session state: dispatch one
pending request to its handler (the snapshot handler mutates nothing). -/
def applyReq (s : Sess) (r : Option Req) : Sess :=
  match r with
  | none => s
  | some (Req.start label) => (handleStart s label).1
  | some Req.cancel => (handleCancel s).1
  | some Req.data => (handleJSON s).1

/-- One step of the cooperative main loop.  Each location that contains a
`server.handleClient()` call first services a pending request, then
performs the checks of the corresponding source lines. -/
def progStep (c : Config) (inp : Input) : Config :=
  match c.pc with
  | PC.top =>
      -- lines 462-475: service, then the !running and cancelRequested branches
      let s := applyReq c.sess inp.req
      if s.running = false then { c with sess := s, pc := PC.top }
      else if s.cancelRequested = true then
        { c with sess := resetMeasurement s, pc := PC.top }
      else { c with sess := s, pc := PC.fingerCheck }
  | PC.fingerCheck =>
      -- lines 477-494: finger presence and the greeting transition
      let s := applyReq c.sess inp.req
      if inp.finger = false then
        { c with sess := { s with hadFinger := false }, pc := PC.top }
      else if s.hadFinger = false then
        { c with sess := { s with hadFinger := true }, pc := PC.greeting }
      else { c with sess := s, pc := PC.stageStart 0 }
  | PC.greeting =>
      -- line 488: yieldFor(800) services requests but checks nothing
      let s := applyReq c.sess inp.req
      { c with sess := s, pc := PC.countdown 3 }
  | PC.countdown k =>
      -- interruptibleCountdown (lines 296-320): each second's wait
      -- services requests and aborts on cancellation
      if k = 0 then { c with pc := PC.stageStart 0 }
      else
        let s := applyReq c.sess inp.req
        if s.cancelRequested = true then
          { c with sess := resetMeasurement s, pc := PC.top }
        else { c with sess := s, pc := PC.countdown (k - 1) }
  | PC.stageStart i =>
      -- lines 497-498: displaySampling plus servicing, then enter the stage
      let s := applyReq c.sess inp.req
      { c with sess := s, pc := PC.sampleLoop i 0 }
  | PC.sampleLoop i j =>
      -- lines 325-328: while the window is not full, service and check
      -- cancellation and finger presence before waiting for the sample
      if j < sampleCounts.getD i 0 then
        let s := applyReq c.sess inp.req
        if s.cancelRequested = true ∨ inp.finger = false then
          { c with sess := resetMeasurement s, pc := PC.top }
        else { c with sess := s, pc := PC.availWait i j }
      else { c with pc := PC.stageCompute i }
  | PC.availWait i j =>
      -- lines 329-337: the unbounded availability wait; only cancellation
      -- is checked inside it, and an available sample is consumed
      if inp.available = true then { c with pc := PC.sampleLoop i (j + 1) }
      else
        let s := applyReq c.sess inp.req
        if s.cancelRequested = true then
          { c with sess := resetMeasurement s, pc := PC.top }
        else { c with sess := s, pc := PC.availWait i j }
  | PC.stageCompute i =>
      -- lines 340-361: estimator call plus plausibility filtering
      { c with sess := recordStage c.sess i inp.estimate, pc := PC.stagePost i }
  | PC.stagePost i =>
      -- lines 506-507, then the for-loop bound of line 496
      let s := applyReq c.sess inp.req
      if i + 1 < TOTAL_SAMPLES then { c with sess := s, pc := PC.stageStart (i + 1) }
      else { c with sess := s, pc := PC.averaging }
  | PC.averaging =>
      -- lines 510-513: averages computed, running cleared; the ghost flag
      -- records that some session has completed
      { sess := { calculateAverages c.sess with running := false }
        pc := PC.resultHold
        everCompleted := true }
  | PC.resultHold =>
      -- lines 515-523: service until the deadline, then clear the label
      let s := applyReq c.sess inp.req
      if inp.holdOver = true then
        { c with sess := { s with patientName := "" }, pc := PC.top }
      else { c with sess := s, pc := PC.resultHold }

/-- Run the machine over a list of environment inputs. -/
def run (c : Config) : List Input → Config
  | [] => c
  | inp :: rest => run (progStep c inp) rest

/-- Session state after `setup()`: all globals at their initial values. -/
def initSess : Sess :=
  { hrReadings := List.replicate TOTAL_SAMPLES 0
    spo2Readings := List.replicate TOTAL_SAMPLES 0
    validHRCount := 0
    validSpO2Count := 0
    avgHR := 0
    avgSpO2 := 0
    running := false
    hadFinger := false
    cancelRequested := false
    patientName := "" }

/-- Machine configuration right after boot. -/
def initConfig : Config :=
  { sess := initSess, pc := PC.top, everCompleted := false }

/-- Estimator output accepted for both metrics. -/
def goodEstimate : Estimate :=
  { heartRate := 72, hrValid := true, spo2 := 97, spo2Valid := true }

/-- Estimator output with both validity flags clear. -/
def invalidEstimate : Estimate :=
  { heartRate := 0, hrValid := false, spo2 := 0, spo2Valid := false }

/-- Estimator output with a valid heart rate but an invalid saturation. -/
def mixedEstimate : Estimate :=
  { heartRate := 72, hrValid := true, spo2 := 97, spo2Valid := false }

/-- Quiet environment tick: no pending request, finger on the sensor, a
sample ready, deadline not reached. -/
def quietInput (e : Estimate) : Input :=
  { req := none, finger := true, available := true, estimate := e,
    holdOver := false }

/-- Tick at which a `/start` request (with no body) is serviced. -/
def startInput : Input :=
  { req := some (Req.start none), finger := true, available := true,
    estimate := invalidEstimate, holdOver := false }

/-- Tick at which a `/cancel` request is serviced. -/
def cancelInput (e : Estimate) : Input :=
  { quietInput e with req := some Req.cancel }

/-- Tick at which the result-hold deadline has passed. -/
def holdOverInput (e : Estimate) : Input :=
  { quietInput e with holdOver := true }

/-- Tick of an idle device: no request, no finger, no sample. -/
def idleQuietInput : Input :=
  { req := none, finger := false, available := false,
    estimate := invalidEstimate, holdOver := false }

/-- Tick of an idle device at which a `/cancel` request is serviced. -/
def idleCancelInput : Input :=
  { idleQuietInput with req := some Req.cancel }

/-- Tick in which the finger has been lifted and no sample is ready. -/
def fingerLossInput : Input :=
  { req := none, finger := false, available := false,
    estimate := invalidEstimate, holdOver := false }

/-- Environment ticks driving one full sampling stage (from `stageStart i`
through the step leaving `stagePost i`). -/
def stageSeg (i : ℕ) (e : Estimate) : List Input :=
  List.replicate (2 * sampleCounts.getD i 0 + 4) (quietInput e)

/-- Ticks from idle through start, greeting and countdown to the first
stage. -/
def preambleTrace (e : Estimate) : List Input :=
  startInput :: List.replicate 6 (quietInput e)

/-- Ticks of one complete measurement session (every stage sees the same
estimator output `e`), ending with the averaging step. -/
def fullSessionTrace (e : Estimate) : List Input :=
  preambleTrace e ++
    (stageSeg 0 e ++ (stageSeg 1 e ++ (stageSeg 2 e ++ (stageSeg 3 e ++
      (stageSeg 4 e ++ [quietInput e])))))

/-- Ticks of a session up to (and including) arrival at `stagePost 4`: the
final stage's window is filled and filtered, averaging has not run yet. -/
def finalWindowTrace (e : Estimate) : List Input :=
  preambleTrace e ++
    (stageSeg 0 e ++ (stageSeg 1 e ++ (stageSeg 2 e ++ (stageSeg 3 e ++
      (quietInput e ::
        (List.replicate (2 * 90) (quietInput e) ++
          [quietInput e, quietInput e]))))))

/-- `finalWindowTrace` followed by a serviced `/cancel`, the averaging
step, and the hold expiry. -/
def lateCancelTrace (e : Estimate) : List Input :=
  finalWindowTrace e ++ [cancelInput e, quietInput e, holdOverInput e]

/-- Session state right after a `/start` with no body has been serviced
and the finger has been detected (line 486 sets `hadFinger`). -/
def startedSess (s : Sess) : Sess :=
  { (handleStart s none).1 with hadFinger := true }

/-- The five recording steps of a run in which every stage's estimator
output is `e`. -/
def recordAll (s : Sess) (e : Estimate) : Sess :=
  recordStage (recordStage (recordStage (recordStage
    (recordStage s 0 e) 1 e) 2 e) 3 e) 4 e

/-- Session state after a full run from `s` with constant estimator
output `e` (averages computed, `running` cleared at line 511). -/
def completedSess (s : Sess) (e : Estimate) : Sess :=
  { calculateAverages (recordAll (startedSess s) e) with running := false }

/-- Both stored averages are zero: no completed result is held. -/
def AvgZero (c : Config) : Prop :=
  c.sess.avgHR = 0 ∧ c.sess.avgSpO2 = 0

/-- The configuration is at the loop head with no session active and the
counters, subject label, cancel flag and averages all cleared. -/
def IdleReset (c : Config) : Prop :=
  c.pc = PC.top ∧ c.sess.running = false ∧ c.sess.validHRCount = 0 ∧
    c.sess.validSpO2Count = 0 ∧ c.sess.patientName = "" ∧
    c.sess.cancelRequested = false ∧ c.sess.avgHR = 0 ∧ c.sess.avgSpO2 = 0

/-- Along every input path the machine reaches an `IdleReset`
configuration within `n` steps, holding both averages at zero until it
does. -/
def ResolvesWithin : ℕ → Config → Prop
  | 0, c => IdleReset c
  | Nat.succ n, c =>
      IdleReset c ∨ (AvgZero c ∧ ∀ inp, ResolvesWithin n (progStep c inp))

/-- Control locations at which a pending cancellation is guaranteed to be
observed before averaging can run: everywhere in an active session except
after the final stage's window is complete (and except the final
availability wait's exit, whose next location is past the last check). -/
def cancelCaught : PC → Bool
  | PC.top => true
  | PC.fingerCheck => true
  | PC.greeting => true
  | PC.countdown _ => true
  | PC.stageStart i => decide (i < TOTAL_SAMPLES)
  | PC.sampleLoop i j => decide (j < sampleCounts.getD i 0) || decide (i + 1 < TOTAL_SAMPLES)
  | PC.availWait i j => decide (j + 1 < sampleCounts.getD i 0) || decide (i + 1 < TOTAL_SAMPLES)
  | PC.stageCompute i => decide (i + 1 < TOTAL_SAMPLES)
  | PC.stagePost i => decide (i + 1 < TOTAL_SAMPLES)
  | PC.averaging => false
  | PC.resultHold => false

/-- A non-running session state holding the given averages and counts
(used for the scenario checks). -/
def doneSess (hr sp : ℚ) (nhr nsp : ℕ) : Sess :=
  { initSess with avgHR := hr, avgSpO2 := sp,
                  validHRCount := nhr, validSpO2Count := nsp }

/-- A session state whose heart-rate average has a fractional part of one
half (readings 72 and 73 across two valid stages). -/
def sessHalf : Sess :=
  { initSess with
      hrReadings := [72, 73, 0, 0, 0]
      spo2Readings := [97, 97, 0, 0, 0]
      validHRCount := 2
      validSpO2Count := 2
      avgHR := 145 / 2
      avgSpO2 := 97 }

/-- A session state mid-run (used to witness the interruptibility
theorems): active, cancellation already requested. -/
def pendingSess : Sess :=
  { initSess with running := true, cancelRequested := true }

/-- Configuration at the loop head with a cancellation pending. -/
def pendingTopConfig : Config :=
  { sess := pendingSess, pc := PC.top, everCompleted := false }

/-- Configuration waiting for sample availability in the first stage with
a cancellation pending. -/
def pendingAvailConfig : Config :=
  { sess := pendingSess, pc := PC.availWait 0 0, everCompleted := false }

/-- Configuration waiting for sample availability in the first stage of a
session with no cancellation pending. -/
def runningAvailConfig : Config :=
  { sess := { initSess with running := true }, pc := PC.availWait 0 0,
    everCompleted := false }

/-- A session state as left by a full run in which stages 0 and 2 produced
a valid heart rate, and only stage 0 a valid saturation. -/
def sessC4 : Sess :=
  { initSess with
      hrReadings := [72, 0, 80, 0, 0]
      spo2Readings := [97, 0, 0, 0, 0]
      validHRCount := 2
      validSpO2Count := 1 }

/-- Requests serviced while a session is active with a cancellation
already pending leave the session state untouched. -/
theorem applyReq_pending (s : Sess) (r : Option Req)
    (hrun : s.running = true) (hcan : s.cancelRequested = true) :
    applyReq s r = s := by
  match r with
  | none => rfl
  | some (Req.start label) => simp [applyReq, handleStart, hrun]
  | some Req.cancel =>
      obtain ⟨h1, h2, h3, h4, h5, h6, h7, h8, h9, h10⟩ := s
      simp only [Sess.mk.injEq] at hcan ⊢
      simp_all [applyReq, handleCancel]
  | some Req.data => rfl

/-- Running a machine over a concatenated input list runs the two parts in
sequence. -/
theorem run_append (c : Config) (a b : List Input) :
    run c (a ++ b) = run (run c a) b := by
  induction a generalizing c with
  | nil => rfl
  | cons x xs ih => simp [run, ih]

/-- The plausibility filter never touches the lifecycle flags, the
averages, or the subject label. -/
theorem recordStage_frame (s : Sess) (i : ℕ) (e : Estimate) :
    (recordStage s i e).running = s.running ∧
    (recordStage s i e).cancelRequested = s.cancelRequested ∧
    (recordStage s i e).avgHR = s.avgHR ∧
    (recordStage s i e).avgSpO2 = s.avgSpO2 ∧
    (recordStage s i e).hadFinger = s.hadFinger ∧
    (recordStage s i e).patientName = s.patientName := by
  unfold recordStage
  split_ifs <;> simp

/-- C10: the three-way classification computed by the status snapshot
handler and the one computed by the on-device result display agree on
every pair of averages (the duplicated expressions never diverge). -/
theorem claim10_classifier_duplicates_agree (avgSpO2 avgHR : ℚ) :
    displayResultsLabel avgSpO2 avgHR = classifyHandler avgSpO2 avgHR := rfl

/-- C1: for a non-running session with at least one nonzero average, the
snapshot classifies by the Normal/Warning/Critical rule, and the three
end-to-end scenarios come out as specified. -/
theorem claim1_classification_rule :
    (∀ s : Sess, s.running = false → (s.avgHR ≠ 0 ∨ s.avgSpO2 ≠ 0) →
      statusOf s =
        if 95 ≤ s.avgSpO2 ∧ 60 ≤ s.avgHR ∧ s.avgHR ≤ 100 then "Normal"
        else if 90 ≤ s.avgSpO2 then "Warning"
        else "Critical") ∧
    statusOf (doneSess 72 98 5 5) = "Normal" ∧
    statusOf (doneSess 72 92 5 5) = "Warning" ∧
    statusOf (doneSess 110 97 5 5) = "Warning" := by
  refine ⟨?_, by decide, by decide, by decide⟩
  intro s hrun hnz
  have h1 : ¬(s.running = false ∧ s.avgHR = 0 ∧ s.avgSpO2 = 0) := by
    rintro ⟨-, ha, hb⟩
    rcases hnz with h | h <;> exact h (by assumption)
  have h2 : ¬(s.running = true) := by simp [hrun]
  simp only [statusOf]
  rw [if_neg h1, if_neg h2]
  rfl

/-- Witness for C1 at the first scenario. -/
theorem claim1_classification_rule_witness :
    (doneSess 72 98 5 5).running = false ∧
      statusOf (doneSess 72 98 5 5) =
        if 95 ≤ (doneSess 72 98 5 5).avgSpO2 ∧ 60 ≤ (doneSess 72 98 5 5).avgHR ∧
            (doneSess 72 98 5 5).avgHR ≤ 100 then "Normal"
        else if 90 ≤ (doneSess 72 98 5 5).avgSpO2 then "Warning"
        else "Critical" :=
  ⟨rfl, claim1_classification_rule.1 (doneSess 72 98 5 5) rfl (Or.inl (by decide))⟩

/-- C3: each metric of a stage is recorded, and its valid counter bumped,
exactly when its validity flag is set and its value is in range; a
rejected metric is stored as the zero sentinel without aborting the stage,
so a stage can yield one accepted and one absent metric (shown for an
estimate with a valid heart rate and an invalid saturation). -/
theorem claim3_plausibility_filters (s : Sess) (i : ℕ) (e : Estimate) :
    recordStage s i e =
      { s with
          hrReadings := s.hrReadings.set i
            (if e.hrValid = true ∧ 40 ≤ e.heartRate ∧ e.heartRate ≤ 220 then
              (e.heartRate : ℚ) else 0)
          validHRCount := s.validHRCount +
            (if e.hrValid = true ∧ 40 ≤ e.heartRate ∧ e.heartRate ≤ 220 then 1
             else 0)
          spo2Readings := s.spo2Readings.set i
            (if e.spo2Valid = true ∧ 80 ≤ e.spo2 ∧ e.spo2 ≤ 100 then
              (e.spo2 : ℚ) else 0)
          validSpO2Count := s.validSpO2Count +
            (if e.spo2Valid = true ∧ 80 ≤ e.spo2 ∧ e.spo2 ≤ 100 then 1
             else 0) } ∧
    (recordStage s i mixedEstimate).validHRCount = s.validHRCount + 1 ∧
    (recordStage s i mixedEstimate).validSpO2Count = s.validSpO2Count ∧
    (recordStage s i mixedEstimate).spo2Readings = s.spo2Readings.set i 0 ∧
    (recordStage s i mixedEstimate).hrReadings = s.hrReadings.set i 72 := by
  constructor
  · unfold recordStage
    by_cases h1 : e.hrValid = true ∧ 40 ≤ e.heartRate ∧ e.heartRate ≤ 220 <;>
      by_cases h2 : e.spo2Valid = true ∧ 80 ≤ e.spo2 ∧ e.spo2 ≤ 100 <;>
      simp [h1, h2]
  refine ⟨?_, ?_, ?_, ?_⟩ <;> norm_num [recordStage, mixedEstimate]

/-- C6: a Begin request while a session is active changes nothing and
still acknowledges success; a Begin while idle resets the whole session
state, captures the optional label (truncated to the 31 characters the
buffer holds), and acknowledges success. -/
theorem claim6_begin_noop_when_running (s : Sess) (label : Option String) :
    (s.running = true → handleStart s label = (s, true)) ∧
    (s.running = false →
      handleStart s label =
        ({ s with
            patientName := (label.getD "").take 31
            running := true
            hadFinger := false
            cancelRequested := false
            validHRCount := 0
            validSpO2Count := 0
            avgHR := 0
            avgSpO2 := 0
            hrReadings := List.replicate TOTAL_SAMPLES 0
            spo2Readings := List.replicate TOTAL_SAMPLES 0 }, true)) := by
  constructor <;> intro h <;> simp [handleStart, h]

/-- Witness for C6: a Begin during an active named session is a no-op. -/
theorem claim6_begin_noop_when_running_witness :
    handleStart { initSess with running := true, patientName := "Ada" } none =
      ({ initSess with running := true, patientName := "Ada" }, true) :=
  (claim6_begin_noop_when_running
    { initSess with running := true, patientName := "Ada" } none).1 rfl

/-- Unfolding lemma for `positives` on a cons cell. -/
theorem positives_cons (x : ℚ) (xs : List ℚ) :
    positives (x :: xs) = if 0 < x then x :: positives xs else positives xs := by
  simp [positives, List.filter_cons]

/-- Folding the sum of positive entries from any accumulator adds the sum
of the positive entries. -/
theorem sumPos_go (l : List ℚ) (a : ℚ) :
    l.foldl (fun acc x => if 0 < x then acc + x else acc) a =
      a + (positives l).sum := by
  induction l generalizing a with
  | nil => simp [positives]
  | cons x xs ih =>
      simp only [List.foldl_cons, positives_cons]
      by_cases h : 0 < x
      · rw [if_pos h, if_pos h, ih, List.sum_cons]
        ring
      · rw [if_neg h, if_neg h, ih]

/-- The accumulated sum of `calculateAverages` is the sum of the positive
entries. -/
theorem sumPos_eq (l : List ℚ) : sumPos l = (positives l).sum := by
  simpa using sumPos_go l 0

/-- A nonempty list of positive entries has a positive sum. -/
theorem positives_sum_pos (l : List ℚ) (h : positives l ≠ []) :
    0 < (positives l).sum := by
  refine List.sum_pos _ (fun x hx => ?_) h
  have hm := List.mem_filter.mp hx
  simpa using hm.2

/-- Core averaging fact for one metric: the computed average is the mean
of the positive entries, and it is zero exactly when the count is zero. -/
theorem avgOf_metric (l : List ℚ) (n : ℕ) (hn : n = (positives l).length) :
    ((if 0 < n then sumPos l / (n : ℚ) else 0) =
      if n = 0 then 0 else (positives l).sum / (n : ℚ)) ∧
    ((if 0 < n then sumPos l / (n : ℚ) else 0) = 0 ↔ n = 0) := by
  cases n with
  | zero => simp
  | succ m =>
      have hpos : 0 < Nat.succ m := Nat.succ_pos m
      have hne : positives l ≠ [] := by
        intro hcontra
        rw [hcontra] at hn
        simp at hn
      have hsum : 0 < (positives l).sum := positives_sum_pos l hne
      constructor
      · rw [if_pos hpos, if_neg (Nat.succ_ne_zero m), sumPos_eq]
      · rw [if_pos hpos, sumPos_eq]
        constructor
        · intro h
          have hq : (0 : ℚ) < ((Nat.succ m : ℕ) : ℚ) := by exact_mod_cast hpos
          exact absurd h (div_pos hsum hq).ne'
        · intro h
          exact absurd h (Nat.succ_ne_zero m)

/-- C4: after a full run (every recorded reading is the zero sentinel or
an accepted in-range value and the counters count the accepted entries),
`calculateAverages` sets each average to the mean of the accepted entries
of its category, and an average is zero exactly when its valid count is
zero. -/
theorem claim4_average_of_valid_entries (s : Sess)
    (hhr : ∀ x ∈ s.hrReadings, x = 0 ∨ (40 ≤ x ∧ x ≤ 220))
    (hsp : ∀ x ∈ s.spo2Readings, x = 0 ∨ (80 ≤ x ∧ x ≤ 100))
    (chr : s.validHRCount = (positives s.hrReadings).length)
    (csp : s.validSpO2Count = (positives s.spo2Readings).length) :
    ((calculateAverages s).avgHR =
      if s.validHRCount = 0 then 0
      else (positives s.hrReadings).sum / (s.validHRCount : ℚ)) ∧
    ((calculateAverages s).avgHR = 0 ↔ s.validHRCount = 0) ∧
    ((calculateAverages s).avgSpO2 =
      if s.validSpO2Count = 0 then 0
      else (positives s.spo2Readings).sum / (s.validSpO2Count : ℚ)) ∧
    ((calculateAverages s).avgSpO2 = 0 ↔ s.validSpO2Count = 0) := by
  have h1 := avgOf_metric s.hrReadings s.validHRCount chr
  have h2 := avgOf_metric s.spo2Readings s.validSpO2Count csp
  exact ⟨h1.1, h1.2, h2.1, h2.2⟩

/-- Witness for C4 on a run with two valid heart rates and one valid
saturation. -/
theorem claim4_average_of_valid_entries_witness :
    ((calculateAverages sessC4).avgHR = 0 ↔ sessC4.validHRCount = 0) ∧
      ((calculateAverages sessC4).avgSpO2 = 0 ↔ sessC4.validSpO2Count = 0) :=
  ⟨(claim4_average_of_valid_entries sessC4 (by decide) (by decide) (by decide)
      (by decide)).2.1,
   (claim4_average_of_valid_entries sessC4 (by decide) (by decide) (by decide)
      (by decide)).2.2.2⟩

/-- C9 (amended): the snapshot consists of exactly the seven fields, with
the averages truncated toward zero (C-style `(int)` cast, not rounding),
the status always one of the five strings, and producing it mutates no
session state. -/
theorem claim9_snapshot_fields_amended (s : Sess) :
    (handleJSON s).1 = s ∧
    (handleJSON s).2 =
      { heartRate := cTrunc s.avgHR
        spo2 := cTrunc s.avgSpO2
        hrValid := s.validHRCount
        spo2Valid := s.validSpO2Count
        totalSamples := TOTAL_SAMPLES
        running := s.running
        status := statusOf s } ∧
    ((handleJSON s).2.status = "idle" ∨ (handleJSON s).2.status = "measuring" ∨
      (handleJSON s).2.status = "Normal" ∨
      (handleJSON s).2.status = "Warning" ∨
      (handleJSON s).2.status = "Critical") := by
  refine ⟨rfl, rfl, ?_⟩
  show statusOf s = "idle" ∨ statusOf s = "measuring" ∨ statusOf s = "Normal" ∨
    statusOf s = "Warning" ∨ statusOf s = "Critical"
  unfold statusOf classifyHandler
  split_ifs <;> simp

/-- Counterexample for C9 as stated: on a session whose stored average is
72.5 the snapshot reports 72 (truncation), not the rounded value 73. -/
theorem claim9_truncation_not_rounding :
    sessHalf.avgHR = 145 / 2 ∧
    (handleJSON sessHalf).2.heartRate = 72 ∧
    round sessHalf.avgHR = 73 ∧
    ¬((handleJSON sessHalf).2.heartRate = round sessHalf.avgHR) := by
  have h1 : (handleJSON sessHalf).2.heartRate = 72 := by
    show cTrunc sessHalf.avgHR = 72
    have hv : sessHalf.avgHR = (145 : ℚ) / 2 := rfl
    rw [hv]
    unfold cTrunc
    rw [if_pos (by norm_num), Int.floor_eq_iff]
    constructor <;> norm_num
  have h2 : round sessHalf.avgHR = 73 := by
    have hv : sessHalf.avgHR = (145 : ℚ) / 2 := rfl
    rw [hv, round_eq]
    have hs : (145 : ℚ) / 2 + 1 / 2 = 73 := by norm_num
    rw [hs, Int.floor_eq_iff]
    constructor <;> norm_num
  refine ⟨rfl, h1, h2, ?_⟩
  rw [h1, h2]
  decide

/-- C7 (amended): every Cancel request unconditionally raises the flag
and acknowledges success and has no other effect; the flag is cleared when
the next session begins (the start handler clears it), so a cancel issued
while idle never aborts a later session. -/
theorem claim7_cancel_sets_flag_amended (s : Sess) (label : Option String) :
    handleCancel s = ({ s with cancelRequested := true }, true) ∧
    (s.running = false →
      (handleStart s label).1.cancelRequested = false ∧
        (handleStart s label).1.running = true) := by
  refine ⟨rfl, fun h => ?_⟩
  simp [handleStart, h]

/-- Witness for C7: a start after an idle-time cancel begins with the flag
clear. -/
theorem claim7_cancel_sets_flag_amended_witness :
    (handleStart { initSess with cancelRequested := true } none).1.cancelRequested =
        false ∧
      (handleStart { initSess with cancelRequested := true } none).1.running =
        true :=
  (claim7_cancel_sets_flag_amended { initSess with cancelRequested := true }
    none).2 rfl

/-- Counterexample for C7 as stated: a cancel serviced while no session is
active leaves the flag set, and the flag is still set after the machine
passes through Idle again (it is not cleared on the next entry to Idle). -/
theorem claim7_flag_persists_while_idle :
    (progStep initConfig idleCancelInput).pc = PC.top ∧
    (progStep initConfig idleCancelInput).sess.running = false ∧
    (progStep initConfig idleCancelInput).sess.cancelRequested = true ∧
    (progStep (progStep initConfig idleCancelInput) idleQuietInput).pc =
      PC.top ∧
    (progStep (progStep initConfig idleCancelInput)
        idleQuietInput).sess.running = false ∧
    (progStep (progStep initConfig idleCancelInput)
        idleQuietInput).sess.cancelRequested = true := by
  decide

/-- C8 (amended): every iteration of the per-sample availability wait is
escapable via cancellation (a pending cancel with no sample available
interrupts the stage and resets the session), and finger loss is detected
once per sample at the head of the outer sampling loop, where either a
pending cancel or an absent finger interrupts the stage. -/
theorem claim8_availability_wait_escape_amended (c : Config) (i j : ℕ)
    (inp : Input) (hreq : inp.req = none) :
    (c.pc = PC.availWait i j → inp.available = false →
      c.sess.cancelRequested = true →
      progStep c inp = { c with sess := resetMeasurement c.sess, pc := PC.top }) ∧
    (c.pc = PC.sampleLoop i j → j < sampleCounts.getD i 0 →
      (c.sess.cancelRequested = true ∨ inp.finger = false) →
      progStep c inp = { c with sess := resetMeasurement c.sess, pc := PC.top }) := by
  constructor
  · intro hpc hav hcan
    simp [progStep, hpc, hav, hcan, applyReq, hreq]
  · intro hpc hj hcond
    simp only [progStep, hpc, hreq, applyReq]
    rw [if_pos hj, if_pos hcond]

/-- Witness for C8: a pending cancel escapes the availability wait of the
first sample of the first stage. -/
theorem claim8_availability_wait_escape_amended_witness :
    progStep pendingAvailConfig fingerLossInput =
      { pendingAvailConfig with
          sess := resetMeasurement pendingAvailConfig.sess, pc := PC.top } :=
  (claim8_availability_wait_escape_amended pendingAvailConfig 0 0
    fingerLossInput rfl).1 rfl rfl rfl

/-- Counterexample for C8 as stated: with no cancellation pending, an
iteration of the availability wait in which the finger is absent (and no
sample is ready) does NOT terminate the wait — the configuration is
unchanged, so finger loss does not escape the per-sample wait. -/
theorem claim8_finger_loss_does_not_escape_wait :
    runningAvailConfig.sess.cancelRequested = false ∧
    fingerLossInput.finger = false ∧
    progStep runningAvailConfig fingerLossInput = runningAvailConfig := by
  decide

/-- With no cancellation pending, a stage's sampling loop consumes two
quiet ticks per remaining sample (one outer check, one availability wait)
and fills its window without touching the session state. -/
theorem run_quiet_sampling (i : ℕ) (e : Estimate) (g : Bool) :
    ∀ (k j : ℕ), j + k = sampleCounts.getD i 0 →
      ∀ s : Sess, s.cancelRequested = false →
        run { sess := s, pc := PC.sampleLoop i j, everCompleted := g }
            (List.replicate (2 * k) (quietInput e)) =
          { sess := s, pc := PC.sampleLoop i (sampleCounts.getD i 0),
            everCompleted := g } := by
  intro k
  induction k with
  | zero =>
      intro j hj s hc
      have hjn : j = sampleCounts.getD i 0 := by omega
      subst hjn
      rfl
  | succ k ih =>
      intro j hj s hc
      have hjn : j < sampleCounts.getD i 0 := by omega
      rw [show 2 * Nat.succ k = Nat.succ (Nat.succ (2 * k)) from by omega,
        List.replicate_succ, List.replicate_succ]
      simp only [run]
      have e1 : progStep { sess := s, pc := PC.sampleLoop i j, everCompleted := g }
          (quietInput e) =
          { sess := s, pc := PC.availWait i j, everCompleted := g } := by
        simp only [progStep]
        rw [if_pos hjn]
        simp [quietInput, applyReq, hc]
      rw [e1]
      have e2 : progStep { sess := s, pc := PC.availWait i j, everCompleted := g }
          (quietInput e) =
          { sess := s, pc := PC.sampleLoop i (j + 1), everCompleted := g } := by
        simp [progStep, quietInput, applyReq]
      rw [e2]
      exact ih (j + 1) (by omega) s hc

/-- With no cancellation pending, one stage runs to completion on quiet
ticks: its window fills, the estimator output is filtered in, and control
moves to the next stage (or to averaging after the last stage). -/
theorem run_quiet_stage (i : ℕ) (e : Estimate) (g : Bool) (s : Sess)
    (hc : s.cancelRequested = false) :
    run { sess := s, pc := PC.stageStart i, everCompleted := g } (stageSeg i e) =
      { sess := recordStage s i e
        pc := if i + 1 < TOTAL_SAMPLES then PC.stageStart (i + 1)
              else PC.averaging
        everCompleted := g } := by
  unfold stageSeg
  rw [show 2 * sampleCounts.getD i 0 + 4 = 1 + (2 * sampleCounts.getD i 0 + 3)
      from by omega,
    List.replicate_add, run_append]
  have e1 : run { sess := s, pc := PC.stageStart i, everCompleted := g }
      (List.replicate 1 (quietInput e)) =
      { sess := s, pc := PC.sampleLoop i 0, everCompleted := g } := by
    simp [run, progStep, quietInput, applyReq]
  rw [e1, List.replicate_add, run_append,
    run_quiet_sampling i e g (sampleCounts.getD i 0) 0 (by omega) s hc]
  have hnot : ¬(sampleCounts.getD i 0 < sampleCounts.getD i 0) :=
    lt_irrefl _
  by_cases h5 : i + 1 < TOTAL_SAMPLES <;>
    simp [run, progStep, quietInput, applyReq, hnot, h5]

/-- Variant of `run_quiet_stage` for a stage that is not the last. -/
theorem run_quiet_stage_step (i : ℕ) (e : Estimate) (g : Bool) (s : Sess)
    (hc : s.cancelRequested = false) (hi : i + 1 < TOTAL_SAMPLES) :
    run { sess := s, pc := PC.stageStart i, everCompleted := g } (stageSeg i e) =
      { sess := recordStage s i e, pc := PC.stageStart (i + 1),
        everCompleted := g } := by
  rw [run_quiet_stage i e g s hc, if_pos hi]

/-- Variant of `run_quiet_stage` for the last stage. -/
theorem run_quiet_stage_last (e : Estimate) (g : Bool) (s : Sess)
    (hc : s.cancelRequested = false) :
    run { sess := s, pc := PC.stageStart 4, everCompleted := g } (stageSeg 4 e) =
      { sess := recordStage s 4 e, pc := PC.averaging, everCompleted := g } := by
  rw [run_quiet_stage 4 e g s hc, if_neg (by decide)]

/-- From the finger check of a fresh session, six quiet ticks pass the
greeting and the three countdown seconds and reach the first stage. -/
theorem run_post_start (e : Estimate) (g : Bool) (st : Sess)
    (hcan : st.cancelRequested = false) (hhf : st.hadFinger = false) :
    run { sess := st, pc := PC.fingerCheck, everCompleted := g }
        (List.replicate 6 (quietInput e)) =
      { sess := { st with hadFinger := true }, pc := PC.stageStart 0,
        everCompleted := g } := by
  have hl : List.replicate 6 (quietInput e) =
      [quietInput e, quietInput e, quietInput e, quietInput e, quietInput e,
        quietInput e] := rfl
  rw [hl]
  simp only [run]
  simp [progStep, quietInput, applyReq, hhf, hcan]

/-- Fields of the session created by a `/start` with no body. -/
theorem startedSess_fields (s : Sess) (hrun : s.running = false) :
    (startedSess s).running = true ∧ (startedSess s).cancelRequested = false ∧
      (startedSess s).avgHR = 0 ∧ (startedSess s).avgSpO2 = 0 := by
  simp [startedSess, handleStart, hrun]

/-- From an idle loop head, the preamble trace (start request, finger
detection, greeting, countdown) reaches the first stage of a fresh
session. -/
theorem run_preamble (e : Estimate) (g : Bool) (s : Sess)
    (hrun : s.running = false) :
    run { sess := s, pc := PC.top, everCompleted := g } (preambleTrace e) =
      { sess := startedSess s, pc := PC.stageStart 0, everCompleted := g } := by
  unfold preambleTrace
  simp only [run]
  have e1 : progStep { sess := s, pc := PC.top, everCompleted := g } startInput =
      { sess := (handleStart s none).1, pc := PC.fingerCheck,
        everCompleted := g } := by
    simp [progStep, startInput, applyReq, handleStart, hrun]
  rw [e1]
  have h1 : (handleStart s none).1.cancelRequested = false := by
    simp [handleStart, hrun]
  have h2 : (handleStart s none).1.hadFinger = false := by
    simp [handleStart, hrun]
  exact run_post_start e g (handleStart s none).1 h1 h2

/-- A full session on quiet ticks with constant estimator output `e`: from
an idle loop head, the machine reaches the result hold with the averaged
session state, and the ghost completion flag set. -/
theorem run_full_session (e : Estimate) (g : Bool) (s : Sess)
    (hrun : s.running = false) :
    run { sess := s, pc := PC.top, everCompleted := g } (fullSessionTrace e) =
      { sess := completedSess s e, pc := PC.resultHold,
        everCompleted := true } := by
  unfold fullSessionTrace
  rw [run_append, run_preamble e g s hrun]
  have hc0 : (startedSess s).cancelRequested = false :=
    (startedSess_fields s hrun).2.1
  rw [run_append, run_quiet_stage_step 0 e g _ hc0 (by decide)]
  have hc1 : (recordStage (startedSess s) 0 e).cancelRequested = false :=
    (recordStage_frame _ 0 e).2.1.trans hc0
  rw [run_append, run_quiet_stage_step 1 e g _ hc1 (by decide)]
  have hc2 :
      (recordStage (recordStage (startedSess s) 0 e) 1 e).cancelRequested =
        false :=
    (recordStage_frame _ 1 e).2.1.trans hc1
  rw [run_append, run_quiet_stage_step 2 e g _ hc2 (by decide)]
  have hc3 :
      (recordStage (recordStage (recordStage (startedSess s) 0 e) 1 e)
          2 e).cancelRequested = false :=
    (recordStage_frame _ 2 e).2.1.trans hc2
  rw [run_append, run_quiet_stage_step 3 e g _ hc3 (by decide)]
  have hc4 :
      (recordStage (recordStage (recordStage (recordStage (startedSess s) 0 e)
          1 e) 2 e) 3 e).cancelRequested = false :=
    (recordStage_frame _ 3 e).2.1.trans hc3
  rw [run_append, run_quiet_stage_last e g _ hc4]
  show run _ [quietInput e] = _
  simp only [run]
  simp [progStep, completedSess, recordAll]

/-- The final stage run only up to the filtering step: from `stageStart 4`
the window fills and is filtered, and control stops at `stagePost 4`. -/
theorem run_last_window (e : Estimate) (g : Bool) (s4 : Sess)
    (hc : s4.cancelRequested = false) :
    run { sess := s4, pc := PC.stageStart 4, everCompleted := g }
        (quietInput e :: (List.replicate (2 * 90) (quietInput e) ++
          [quietInput e, quietInput e])) =
      { sess := recordStage s4 4 e, pc := PC.stagePost 4,
        everCompleted := g } := by
  rw [show quietInput e :: (List.replicate (2 * 90) (quietInput e) ++
        [quietInput e, quietInput e]) =
      [quietInput e] ++ (List.replicate (2 * 90) (quietInput e) ++
        [quietInput e, quietInput e]) from rfl, run_append]
  have e1 : run { sess := s4, pc := PC.stageStart 4, everCompleted := g }
      [quietInput e] =
      { sess := s4, pc := PC.sampleLoop 4 0, everCompleted := g } := by
    simp [run, progStep, quietInput, applyReq]
  rw [e1, run_append, run_quiet_sampling 4 e g 90 0 (by decide) s4 hc]
  have e2 : progStep
      { sess := s4, pc := PC.sampleLoop 4 (sampleCounts.getD 4 0),
        everCompleted := g } (quietInput e) =
      { sess := s4, pc := PC.stageCompute 4, everCompleted := g } := by
    simp only [progStep]
    rw [if_neg (lt_irrefl _)]
  show run _ [quietInput e, quietInput e] = _
  simp only [run]
  rw [e2]
  rfl

/-- Running the trace that stops right after the final stage's window is
filled and filtered: the machine sits at `stagePost 4` with the session
still active. -/
theorem run_final_window (e : Estimate) (g : Bool) (s : Sess)
    (hrun : s.running = false) :
    run { sess := s, pc := PC.top, everCompleted := g } (finalWindowTrace e) =
      { sess := recordAll (startedSess s) e, pc := PC.stagePost 4,
        everCompleted := g } := by
  unfold finalWindowTrace
  rw [run_append, run_preamble e g s hrun]
  have hc0 : (startedSess s).cancelRequested = false :=
    (startedSess_fields s hrun).2.1
  rw [run_append, run_quiet_stage_step 0 e g _ hc0 (by decide)]
  have hc1 : (recordStage (startedSess s) 0 e).cancelRequested = false :=
    (recordStage_frame _ 0 e).2.1.trans hc0
  rw [run_append, run_quiet_stage_step 1 e g _ hc1 (by decide)]
  have hc2 :
      (recordStage (recordStage (startedSess s) 0 e) 1 e).cancelRequested =
        false :=
    (recordStage_frame _ 1 e).2.1.trans hc1
  rw [run_append, run_quiet_stage_step 2 e g _ hc2 (by decide)]
  have hc3 :
      (recordStage (recordStage (recordStage (startedSess s) 0 e) 1 e)
          2 e).cancelRequested = false :=
    (recordStage_frame _ 2 e).2.1.trans hc2
  rw [run_append, run_quiet_stage_step 3 e g _ hc3 (by decide)]
  have hc4 :
      (recordStage (recordStage (recordStage (recordStage (startedSess s) 0 e)
          1 e) 2 e) 3 e).cancelRequested = false :=
    (recordStage_frame _ 3 e).2.1.trans hc3
  rw [run_last_window e g _ hc4]
  rfl

/-- A serviced request either leaves the averages unchanged or zeroes them
(a start serviced while no session is active). -/
theorem applyReq_avg (s : Sess) (r : Option Req) :
    ((applyReq s r).avgHR = s.avgHR ∧ (applyReq s r).avgSpO2 = s.avgSpO2) ∨
      ((applyReq s r).avgHR = 0 ∧ (applyReq s r).avgSpO2 = 0) := by
  match r with
  | none => exact Or.inl ⟨rfl, rfl⟩
  | some (Req.start label) =>
      by_cases h : s.running = false
      · right
        simp [applyReq, handleStart, h]
      · left
        simp [applyReq, handleStart, h]
  | some Req.cancel => exact Or.inl ⟨rfl, rfl⟩
  | some Req.data => exact Or.inl ⟨rfl, rfl⟩

/-- The ghost invariant holds after boot: nothing has completed and both
averages are zero. -/
theorem ghost_inv_init :
    initConfig.everCompleted = false →
      initConfig.sess.avgHR = 0 ∧ initConfig.sess.avgSpO2 = 0 :=
  fun _ => ⟨rfl, rfl⟩

/-- The ghost invariant is preserved by every machine step: while no
session has ever completed, both stored averages are zero. -/
theorem ghost_inv_step (c : Config) (inp : Input)
    (h : c.everCompleted = false → c.sess.avgHR = 0 ∧ c.sess.avgSpO2 = 0) :
    (progStep c inp).everCompleted = false →
      (progStep c inp).sess.avgHR = 0 ∧ (progStep c inp).sess.avgSpO2 = 0 := by
  intro hg
  obtain ⟨s, pc, g⟩ := c
  rcases applyReq_avg s inp.req with ⟨ha1, ha2⟩ | ⟨ha1, ha2⟩ <;>
    cases pc <;>
    simp only [progStep] at hg ⊢ <;>
    (try split_ifs at hg ⊢) <;>
    simp_all [resetMeasurement, recordStage_frame]

/-- C2 (amended): the snapshot reports measuring whenever a session is
active, and reports idle exactly when no session is active and both
stored averages are zero.  In particular it reports idle whenever no
session has ever completed and none is active (under the ghost
invariant), but a completed session with no valid readings also reports
idle. -/
theorem claim2_status_idle_amended (s : Sess) (c : Config)
    (hg : c.everCompleted = false → c.sess.avgHR = 0 ∧ c.sess.avgSpO2 = 0) :
    (s.running = true → statusOf s = "measuring") ∧
    (statusOf s = "idle" ↔ s.running = false ∧ s.avgHR = 0 ∧ s.avgSpO2 = 0) ∧
    (c.sess.running = false → c.everCompleted = false →
      statusOf c.sess = "idle") := by
  have key : ∀ t : Sess, (t.running = true → statusOf t = "measuring") ∧
      (statusOf t = "idle" ↔
        t.running = false ∧ t.avgHR = 0 ∧ t.avgSpO2 = 0) := by
    intro t
    constructor
    · intro h
      unfold statusOf
      rw [if_neg, if_pos h]
      rintro ⟨h1, -⟩
      rw [h] at h1
      exact Bool.noConfusion h1
    · unfold statusOf
      split_ifs with h1 h2
      · exact iff_of_true rfl h1
      · refine iff_of_false (by decide) h1
      · have hne : classifyHandler t.avgSpO2 t.avgHR ≠ "idle" := by
          unfold classifyHandler
          split_ifs <;> decide
        exact iff_of_false hne h1
  refine ⟨(key s).1, (key s).2, fun hr hec => ?_⟩
  exact (key c.sess).2.mpr ⟨hr, hg hec⟩

/-- Witness for C2 (amended) at the boot state. -/
theorem claim2_status_idle_amended_witness :
    (initSess.running = true → statusOf initSess = "measuring") ∧
    (statusOf initSess = "idle" ↔
      initSess.running = false ∧ initSess.avgHR = 0 ∧ initSess.avgSpO2 = 0) ∧
    (initConfig.sess.running = false → initConfig.everCompleted = false →
      statusOf initConfig.sess = "idle") :=
  claim2_status_idle_amended initSess initConfig (fun _ => ⟨rfl, rfl⟩)

/-- Counterexample for C2 as stated: a session can complete with no valid
readings; afterwards a session HAS completed and none is active, yet the
snapshot still reports "idle" (the code keys on the zero averages, not on
completion). -/
theorem claim2_idle_after_empty_completion :
    (run initConfig (fullSessionTrace invalidEstimate)).everCompleted = true ∧
    (run initConfig (fullSessionTrace invalidEstimate)).sess.running = false ∧
    (handleJSON
        (run initConfig (fullSessionTrace invalidEstimate)).sess).2.status =
      "idle" := by
  have h0 : initConfig =
      { sess := initSess, pc := PC.top, everCompleted := false } := rfl
  have h : run initConfig (fullSessionTrace invalidEstimate) =
      { sess := completedSess initSess invalidEstimate, pc := PC.resultHold,
        everCompleted := true } := by
    rw [h0]
    exact run_full_session invalidEstimate false initSess rfl
  rw [h]
  refine ⟨rfl, rfl, ?_⟩
  decide

/-- Every stage of the fixed schedule has a nonempty window. -/
theorem sampleCounts_pos : ∀ i, i < TOTAL_SAMPLES → 0 < sampleCounts.getD i 0 := by
  decide

/-- Resetting the measurement from a session whose averages are zero lands
in an idle reset configuration. -/
theorem idleReset_of_reset (s : Sess) (g : Bool) (h3 : s.avgHR = 0)
    (h4 : s.avgSpO2 = 0) :
    IdleReset
      { sess := resetMeasurement s, pc := PC.top, everCompleted := g } :=
  ⟨rfl, rfl, rfl, rfl, rfl, rfl, h3, h4⟩

/-- A configuration that resolves within `n` steps resolves within
`n + 1`. -/
theorem resolvesWithin_mono (n : ℕ) :
    ∀ c, ResolvesWithin n c → ResolvesWithin (n + 1) c := by
  induction n with
  | zero => exact fun c h => Or.inl h
  | succ n ih =>
      intro c h
      rcases h with h | ⟨ha, hs⟩
      · exact Or.inl h
      · exact Or.inr ⟨ha, fun inp => ih _ (hs inp)⟩

/-- Bound weakening for `ResolvesWithin`, additive form. -/
theorem resolvesWithin_add (m d : ℕ) :
    ∀ c, ResolvesWithin m c → ResolvesWithin (m + d) c := by
  induction d with
  | zero => exact fun c h => h
  | succ d ih => exact fun c h => resolvesWithin_mono (m + d) c (ih c h)

/-- Bound weakening for `ResolvesWithin`. -/
theorem resolvesWithin_le (m n : ℕ) (h : m ≤ n) (c : Config) :
    ResolvesWithin m c → ResolvesWithin n c := by
  obtain ⟨d, rfl⟩ := Nat.exists_eq_add_of_le h
  exact resolvesWithin_add m d c

/-- An idle reset configuration resolves within any bound. -/
theorem resolvesWithin_of_idleReset (n : ℕ) (c : Config) (h : IdleReset c) :
    ResolvesWithin n c := by
  cases n with
  | zero => exact h
  | succ n => exact Or.inl h

/-- At the loop head, a pending cancellation is consumed on the next step:
the session resets. -/
theorem resolves_top (s : Sess) (g : Bool) (h1 : s.running = true)
    (h2 : s.cancelRequested = true) (h3 : s.avgHR = 0) (h4 : s.avgSpO2 = 0) :
    ResolvesWithin 1 { sess := s, pc := PC.top, everCompleted := g } := by
  refine Or.inr ⟨⟨h3, h4⟩, fun inp => ?_⟩
  have hstep : progStep { sess := s, pc := PC.top, everCompleted := g } inp =
      { sess := resetMeasurement s, pc := PC.top, everCompleted := g } := by
    simp only [progStep]
    rw [applyReq_pending s inp.req h1 h2, if_neg (by simp [h1]), if_pos h2]
  rw [hstep]
  exact idleReset_of_reset s g h3 h4

/-- At the head of the sampling loop with samples still to collect, a
pending cancellation is consumed on the next step. -/
theorem resolves_sampleLoop_lt (s : Sess) (g : Bool) (i j : ℕ)
    (hj : j < sampleCounts.getD i 0) (h1 : s.running = true)
    (h2 : s.cancelRequested = true) (h3 : s.avgHR = 0) (h4 : s.avgSpO2 = 0) :
    ResolvesWithin 1 { sess := s, pc := PC.sampleLoop i j, everCompleted := g } := by
  refine Or.inr ⟨⟨h3, h4⟩, fun inp => ?_⟩
  have hstep : progStep { sess := s, pc := PC.sampleLoop i j, everCompleted := g }
      inp = { sess := resetMeasurement s, pc := PC.top, everCompleted := g } := by
    simp only [progStep]
    rw [if_pos hj, applyReq_pending s inp.req h1 h2, if_pos (Or.inl h2)]
  rw [hstep]
  exact idleReset_of_reset s g h3 h4

/-- At the head of a stage, a pending cancellation is consumed within two
steps. -/
theorem resolves_stageStart (s : Sess) (g : Bool) (i : ℕ)
    (hn : 0 < sampleCounts.getD i 0) (h1 : s.running = true)
    (h2 : s.cancelRequested = true) (h3 : s.avgHR = 0) (h4 : s.avgSpO2 = 0) :
    ResolvesWithin 2 { sess := s, pc := PC.stageStart i, everCompleted := g } := by
  refine Or.inr ⟨⟨h3, h4⟩, fun inp => ?_⟩
  have hstep : progStep { sess := s, pc := PC.stageStart i, everCompleted := g }
      inp = { sess := s, pc := PC.sampleLoop i 0, everCompleted := g } := by
    simp only [progStep]
    rw [applyReq_pending s inp.req h1 h2]
  rw [hstep]
  exact resolves_sampleLoop_lt s g i 0 hn h1 h2 h3 h4

/-- During the countdown, a pending cancellation is consumed within three
steps. -/
theorem resolves_countdown (s : Sess) (g : Bool) (k : ℕ)
    (h1 : s.running = true) (h2 : s.cancelRequested = true)
    (h3 : s.avgHR = 0) (h4 : s.avgSpO2 = 0) :
    ResolvesWithin 3 { sess := s, pc := PC.countdown k, everCompleted := g } := by
  by_cases hk : k = 0
  · refine Or.inr ⟨⟨h3, h4⟩, fun inp => ?_⟩
    have hstep : progStep { sess := s, pc := PC.countdown k, everCompleted := g }
        inp = { sess := s, pc := PC.stageStart 0, everCompleted := g } := by
      simp only [progStep]
      rw [if_pos hk]
    rw [hstep]
    exact resolves_stageStart s g 0 (by decide) h1 h2 h3 h4
  · refine Or.inr ⟨⟨h3, h4⟩, fun inp => ?_⟩
    have hstep : progStep { sess := s, pc := PC.countdown k, everCompleted := g }
        inp = { sess := resetMeasurement s, pc := PC.top, everCompleted := g } := by
      simp only [progStep]
      rw [if_neg hk, applyReq_pending s inp.req h1 h2, if_pos h2]
    rw [hstep]
    exact resolvesWithin_of_idleReset 2 _ (idleReset_of_reset s g h3 h4)

/-- During the greeting dwell, a pending cancellation is consumed within
four steps (it is first observed in the countdown wait). -/
theorem resolves_greeting (s : Sess) (g : Bool)
    (h1 : s.running = true) (h2 : s.cancelRequested = true)
    (h3 : s.avgHR = 0) (h4 : s.avgSpO2 = 0) :
    ResolvesWithin 4 { sess := s, pc := PC.greeting, everCompleted := g } := by
  refine Or.inr ⟨⟨h3, h4⟩, fun inp => ?_⟩
  have hstep : progStep { sess := s, pc := PC.greeting, everCompleted := g }
      inp = { sess := s, pc := PC.countdown 3, everCompleted := g } := by
    simp only [progStep]
    rw [applyReq_pending s inp.req h1 h2]
  rw [hstep]
  exact resolves_countdown s g 3 h1 h2 h3 h4

/-- At the finger check, a pending cancellation is consumed within five
steps along every branch. -/
theorem resolves_fingerCheck (s : Sess) (g : Bool)
    (h1 : s.running = true) (h2 : s.cancelRequested = true)
    (h3 : s.avgHR = 0) (h4 : s.avgSpO2 = 0) :
    ResolvesWithin 5 { sess := s, pc := PC.fingerCheck, everCompleted := g } := by
  refine Or.inr ⟨⟨h3, h4⟩, fun inp => ?_⟩
  by_cases hf : inp.finger = false
  · have hstep : progStep { sess := s, pc := PC.fingerCheck, everCompleted := g }
        inp =
        { sess := { s with hadFinger := false }, pc := PC.top,
          everCompleted := g } := by
      simp only [progStep]
      rw [applyReq_pending s inp.req h1 h2, if_pos hf]
    rw [hstep]
    exact resolvesWithin_le 1 4 (by omega) _
      (resolves_top { s with hadFinger := false } g h1 h2 h3 h4)
  · by_cases hh : s.hadFinger = false
    · have hstep : progStep
          { sess := s, pc := PC.fingerCheck, everCompleted := g } inp =
          { sess := { s with hadFinger := true }, pc := PC.greeting,
            everCompleted := g } := by
        simp only [progStep]
        rw [applyReq_pending s inp.req h1 h2, if_neg hf, if_pos hh]
      rw [hstep]
      exact resolves_greeting { s with hadFinger := true } g h1 h2 h3 h4
    · have hstep : progStep
          { sess := s, pc := PC.fingerCheck, everCompleted := g } inp =
          { sess := s, pc := PC.stageStart 0, everCompleted := g } := by
        simp only [progStep]
        rw [applyReq_pending s inp.req h1 h2, if_neg hf, if_neg hh]
      rw [hstep]
      exact resolvesWithin_le 2 4 (by omega) _
        (resolves_stageStart s g 0 (by decide) h1 h2 h3 h4)

/-- After a non-final stage's post-wait, a pending cancellation is
consumed within three steps. -/
theorem resolves_stagePost (s : Sess) (g : Bool) (i : ℕ)
    (hi : i + 1 < TOTAL_SAMPLES) (h1 : s.running = true)
    (h2 : s.cancelRequested = true) (h3 : s.avgHR = 0) (h4 : s.avgSpO2 = 0) :
    ResolvesWithin 3 { sess := s, pc := PC.stagePost i, everCompleted := g } := by
  refine Or.inr ⟨⟨h3, h4⟩, fun inp => ?_⟩
  have hstep : progStep { sess := s, pc := PC.stagePost i, everCompleted := g }
      inp = { sess := s, pc := PC.stageStart (i + 1), everCompleted := g } := by
    simp only [progStep]
    rw [applyReq_pending s inp.req h1 h2, if_pos hi]
  rw [hstep]
  exact resolves_stageStart s g (i + 1) (sampleCounts_pos (i + 1) hi) h1 h2 h3 h4

/-- At a non-final stage's estimator step, a pending cancellation is
consumed within four steps. -/
theorem resolves_stageCompute (s : Sess) (g : Bool) (i : ℕ)
    (hi : i + 1 < TOTAL_SAMPLES) (h1 : s.running = true)
    (h2 : s.cancelRequested = true) (h3 : s.avgHR = 0) (h4 : s.avgSpO2 = 0) :
    ResolvesWithin 4 { sess := s, pc := PC.stageCompute i, everCompleted := g } := by
  refine Or.inr ⟨⟨h3, h4⟩, fun inp => ?_⟩
  have hstep : progStep { sess := s, pc := PC.stageCompute i, everCompleted := g }
      inp =
      { sess := recordStage s i inp.estimate, pc := PC.stagePost i,
        everCompleted := g } := rfl
  rw [hstep]
  have hf := recordStage_frame s i inp.estimate
  exact resolves_stagePost (recordStage s i inp.estimate) g i hi
    (hf.1.trans h1) (hf.2.1.trans h2) (hf.2.2.1.trans h3) (hf.2.2.2.1.trans h4)

/-- At the head of the sampling loop of any stage that either still has
samples to collect or is not the last stage, a pending cancellation is
consumed within five steps. -/
theorem resolves_sampleLoop_any (s : Sess) (g : Bool) (i j : ℕ)
    (h : j < sampleCounts.getD i 0 ∨ i + 1 < TOTAL_SAMPLES)
    (h1 : s.running = true) (h2 : s.cancelRequested = true)
    (h3 : s.avgHR = 0) (h4 : s.avgSpO2 = 0) :
    ResolvesWithin 5 { sess := s, pc := PC.sampleLoop i j, everCompleted := g } := by
  by_cases hj : j < sampleCounts.getD i 0
  · exact resolvesWithin_le 1 5 (by omega) _
      (resolves_sampleLoop_lt s g i j hj h1 h2 h3 h4)
  · have hi : i + 1 < TOTAL_SAMPLES := h.resolve_left hj
    refine Or.inr ⟨⟨h3, h4⟩, fun inp => ?_⟩
    have hstep : progStep
        { sess := s, pc := PC.sampleLoop i j, everCompleted := g } inp =
        { sess := s, pc := PC.stageCompute i, everCompleted := g } := by
      simp only [progStep]
      rw [if_neg hj]
    rw [hstep]
    exact resolves_stageCompute s g i hi h1 h2 h3 h4

/-- In the availability wait of any stage that either has further samples
after this one or is not the last stage, a pending cancellation is
consumed within six steps. -/
theorem resolves_availWait (s : Sess) (g : Bool) (i j : ℕ)
    (h : j + 1 < sampleCounts.getD i 0 ∨ i + 1 < TOTAL_SAMPLES)
    (h1 : s.running = true) (h2 : s.cancelRequested = true)
    (h3 : s.avgHR = 0) (h4 : s.avgSpO2 = 0) :
    ResolvesWithin 6 { sess := s, pc := PC.availWait i j, everCompleted := g } := by
  refine Or.inr ⟨⟨h3, h4⟩, fun inp => ?_⟩
  by_cases hav : inp.available = true
  · have hstep : progStep
        { sess := s, pc := PC.availWait i j, everCompleted := g } inp =
        { sess := s, pc := PC.sampleLoop i (j + 1), everCompleted := g } := by
      simp only [progStep]
      rw [if_pos hav]
    rw [hstep]
    exact resolves_sampleLoop_any s g i (j + 1) h h1 h2 h3 h4
  · have hstep : progStep
        { sess := s, pc := PC.availWait i j, everCompleted := g } inp =
        { sess := resetMeasurement s, pc := PC.top, everCompleted := g } := by
      simp only [progStep]
      rw [if_neg hav, applyReq_pending s inp.req h1 h2, if_pos h2]
    rw [hstep]
    exact resolvesWithin_of_idleReset 5 _ (idleReset_of_reset s g h3 h4)

/-- C5 (amended): a cancellation that is pending at any cancellation
checkpoint of an active session strictly before the final stage's window
is complete (`cancelCaught`) forces the machine, along every input path,
to reach Idle within six steps with the counters, subject label and
cancel flag all reset, keeping both averages at zero throughout — so no
completed result is produced.  (A cancel first pending after the final
stage's window is filled is never observed; see the counterexample.) -/
theorem claim5_cancellation_resolves_amended (c : Config)
    (h1 : c.sess.running = true) (h2 : c.sess.cancelRequested = true)
    (h3 : c.sess.avgHR = 0) (h4 : c.sess.avgSpO2 = 0)
    (hpc : cancelCaught c.pc = true) :
    ResolvesWithin 6 c := by
  obtain ⟨s, pc, g⟩ := c
  cases pc with
  | top =>
      exact resolvesWithin_le 1 6 (by omega) _ (resolves_top s g h1 h2 h3 h4)
  | fingerCheck =>
      exact resolvesWithin_le 5 6 (by omega) _
        (resolves_fingerCheck s g h1 h2 h3 h4)
  | greeting =>
      exact resolvesWithin_le 4 6 (by omega) _
        (resolves_greeting s g h1 h2 h3 h4)
  | countdown k =>
      exact resolvesWithin_le 3 6 (by omega) _
        (resolves_countdown s g k h1 h2 h3 h4)
  | stageStart i =>
      simp only [cancelCaught, decide_eq_true_eq] at hpc
      exact resolvesWithin_le 2 6 (by omega) _
        (resolves_stageStart s g i (sampleCounts_pos i hpc) h1 h2 h3 h4)
  | sampleLoop i j =>
      simp only [cancelCaught, Bool.or_eq_true, decide_eq_true_eq] at hpc
      exact resolvesWithin_le 5 6 (by omega) _
        (resolves_sampleLoop_any s g i j hpc h1 h2 h3 h4)
  | availWait i j =>
      simp only [cancelCaught, Bool.or_eq_true, decide_eq_true_eq] at hpc
      exact resolves_availWait s g i j hpc h1 h2 h3 h4
  | stageCompute i =>
      simp only [cancelCaught, decide_eq_true_eq] at hpc
      exact resolvesWithin_le 4 6 (by omega) _
        (resolves_stageCompute s g i hpc h1 h2 h3 h4)
  | stagePost i =>
      simp only [cancelCaught, decide_eq_true_eq] at hpc
      exact resolvesWithin_le 3 6 (by omega) _
        (resolves_stagePost s g i hpc h1 h2 h3 h4)
  | averaging => simp [cancelCaught] at hpc
  | resultHold => simp [cancelCaught] at hpc

/-- Witness for C5 (amended): a cancellation pending at the loop head of
an active session resolves. -/
theorem claim5_cancellation_resolves_amended_witness :
    ResolvesWithin 6 pendingTopConfig :=
  claim5_cancellation_resolves_amended pendingTopConfig rfl rfl rfl rfl rfl

/-- Counterexample for C5 as stated: a cancellation requested while the
session is active and strictly before the Averaging step — namely during
the post-stage wait after the final stage's window is filled — is never
observed: the session still completes with populated averages, nonzero
counters, and the cancel flag left set when the machine next sits at
Idle. -/
theorem claim5_cancel_after_final_window_ignored :
    (run initConfig (finalWindowTrace goodEstimate)).pc = PC.stagePost 4 ∧
    (run initConfig (finalWindowTrace goodEstimate)).sess.running = true ∧
    (run initConfig (finalWindowTrace goodEstimate)).sess.cancelRequested =
      false ∧
    (run initConfig (finalWindowTrace goodEstimate)).sess.avgHR = 0 ∧
    (run initConfig (lateCancelTrace goodEstimate)).pc = PC.top ∧
    (run initConfig (lateCancelTrace goodEstimate)).sess.running = false ∧
    (run initConfig (lateCancelTrace goodEstimate)).sess.cancelRequested =
      true ∧
    (run initConfig (lateCancelTrace goodEstimate)).sess.avgHR = 72 ∧
    (run initConfig (lateCancelTrace goodEstimate)).sess.avgSpO2 = 97 ∧
    (run initConfig (lateCancelTrace goodEstimate)).sess.validHRCount = 5 := by
  have h0 : initConfig =
      { sess := initSess, pc := PC.top, everCompleted := false } := rfl
  have hfw : run initConfig (finalWindowTrace goodEstimate) =
      { sess := recordAll (startedSess initSess) goodEstimate
        pc := PC.stagePost 4, everCompleted := false } := by
    rw [h0]
    exact run_final_window goodEstimate false initSess rfl
  have hs1 : progStep
      { sess := recordAll (startedSess initSess) goodEstimate
        pc := PC.stagePost 4, everCompleted := false }
      (cancelInput goodEstimate) =
      { sess := { recordAll (startedSess initSess) goodEstimate with
            cancelRequested := true }
        pc := PC.averaging, everCompleted := false } := by
    simp only [progStep, cancelInput, quietInput, applyReq, handleCancel]
    rw [if_neg (by decide)]
  have hs2 : progStep
      { sess := { recordAll (startedSess initSess) goodEstimate with
            cancelRequested := true }
        pc := PC.averaging, everCompleted := false }
      (quietInput goodEstimate) =
      { sess := { calculateAverages
            { recordAll (startedSess initSess) goodEstimate with
              cancelRequested := true } with running := false }
        pc := PC.resultHold, everCompleted := true } := rfl
  have hs3 : progStep
      { sess := { calculateAverages
            { recordAll (startedSess initSess) goodEstimate with
              cancelRequested := true } with running := false }
        pc := PC.resultHold, everCompleted := true }
      (holdOverInput goodEstimate) =
      { sess := { { calculateAverages
            { recordAll (startedSess initSess) goodEstimate with
              cancelRequested := true } with running := false } with
            patientName := "" }
        pc := PC.top, everCompleted := true } := by
    simp [progStep, holdOverInput, quietInput, applyReq]
  have hlc : run initConfig (lateCancelTrace goodEstimate) =
      { sess := { { calculateAverages
            { recordAll (startedSess initSess) goodEstimate with
              cancelRequested := true } with running := false } with
            patientName := "" }
        pc := PC.top, everCompleted := true } := by
    unfold lateCancelTrace
    rw [run_append, hfw]
    show run _ [cancelInput goodEstimate, quietInput goodEstimate,
      holdOverInput goodEstimate] = _
    simp only [run]
    rw [hs1, hs2, hs3]
  have hl : ({ recordAll (startedSess initSess) goodEstimate with
      cancelRequested := true }).hrReadings = [72, 72, 72, 72, 72] := by
    decide
  have hl2 : ({ recordAll (startedSess initSess) goodEstimate with
      cancelRequested := true }).spo2Readings = [97, 97, 97, 97, 97] := by
    decide
  have hcnt : ({ recordAll (startedSess initSess) goodEstimate with
      cancelRequested := true }).validHRCount = 5 := by decide
  have hcnt2 : ({ recordAll (startedSess initSess) goodEstimate with
      cancelRequested := true }).validSpO2Count = 5 := by decide
  have havg : (calculateAverages
      { recordAll (startedSess initSess) goodEstimate with
        cancelRequested := true }).avgHR = 72 := by
    simp only [calculateAverages]
    rw [hl, hcnt]
    norm_num [sumPos, List.foldl]
  have havg2 : (calculateAverages
      { recordAll (startedSess initSess) goodEstimate with
        cancelRequested := true }).avgSpO2 = 97 := by
    simp only [calculateAverages]
    rw [hl2, hcnt2]
    norm_num [sumPos, List.foldl]
  rw [hfw, hlc]
  refine ⟨rfl, by decide, by decide, by decide, rfl, rfl, ?_, ?_, ?_, ?_⟩
  · show (calculateAverages
        { recordAll (startedSess initSess) goodEstimate with
          cancelRequested := true }).cancelRequested = true
    decide
  · exact havg
  · exact havg2
  · show (calculateAverages
        { recordAll (startedSess initSess) goodEstimate with
          cancelRequested := true }).validHRCount = 5
    exact hcnt
